import Mathlib

/-!
Shallow embedding of the `cpp-geometric-primitives` repository
(`include/geometry.hpp`, `include/queries.hpp`, `include/intersections.hpp`,
`include/triangulation.hpp`, `src/convex_hull.cpp`) over exact real
arithmetic: C++ `double` values are modelled as real numbers and
`std::sqrt` as `Real.sqrt`, so every theorem below is about the exact-real
semantics of the source text.
-/

namespace Geo

/-- `geometry::Point2D` (geometry.hpp). -/
structure Point2D where
  x : ℝ
  y : ℝ

namespace Point2D

/-- `Point2D::operator+`. -/
noncomputable def add (p q : Point2D) : Point2D := ⟨p.x + q.x, p.y + q.y⟩

/-- `Point2D::operator-`. -/
noncomputable def sub (p q : Point2D) : Point2D := ⟨p.x - q.x, p.y - q.y⟩

/-- `Point2D::operator*` (scalar). -/
noncomputable def smul (p : Point2D) (v : ℝ) : Point2D := ⟨p.x * v, p.y * v⟩

/-- `Point2D::operator/` (scalar). -/
noncomputable def sdiv (p : Point2D) (v : ℝ) : Point2D := ⟨p.x / v, p.y / v⟩

/-- `Point2D::Dot`. -/
noncomputable def Dot (p q : Point2D) : ℝ := p.x * q.x + p.y * q.y

/-- `Point2D::Cross`. -/
noncomputable def Cross (p q : Point2D) : ℝ := p.x * q.y - p.y * q.x

/-- `Point2D::Length`: `std::sqrt(x*x + y*y)`. -/
noncomputable def Length (p : Point2D) : ℝ := Real.sqrt (p.x * p.x + p.y * p.y)

/-- `Point2D::DistanceTo`: `(*this - other).Length()`. -/
noncomputable def DistanceTo (p q : Point2D) : ℝ := (p.sub q).Length

/-- `Point2D::Normalize`: divides by the length only when it is positive,
otherwise returns the zero vector. -/
noncomputable def Normalize (p : Point2D) : Point2D :=
  if 0 < p.Length then ⟨p.x / p.Length, p.y / p.Length⟩ else ⟨0, 0⟩

end Point2D

/-- `geometry::BoundingBox` (geometry.hpp). -/
structure BoundingBox where
  min_x : ℝ
  min_y : ℝ
  max_x : ℝ
  max_y : ℝ

/-- `BoundingBox::Overlaps`. -/
noncomputable def BoundingBox.Overlaps (b o : BoundingBox) : Prop :=
  ¬(b.max_x < o.min_x ∨ b.min_x > o.max_x ∨ b.max_y < o.min_y ∨ b.min_y > o.max_y)

/-- `geometry::Line` (a segment; `end` is a Lean keyword, renamed `endP`). -/
structure Line where
  start : Point2D
  endP : Point2D

/-- `Line::BoundBox`. -/
noncomputable def Line.BoundBox (l : Line) : BoundingBox :=
  ⟨min l.start.x l.endP.x, min l.start.y l.endP.y, max l.start.x l.endP.x, max l.start.y l.endP.y⟩

/-- `Line::Height`: `std::max(start.y, end.y)`. -/
noncomputable def Line.Height (l : Line) : ℝ := max l.start.y l.endP.y

/-- `geometry::Triangle`. -/
structure Triangle where
  a : Point2D
  b : Point2D
  c : Point2D

/-- `Triangle::BoundBox`. -/
noncomputable def Triangle.BoundBox (t : Triangle) : BoundingBox :=
  ⟨min (min t.a.x t.b.x) t.c.x, min (min t.a.y t.b.y) t.c.y,
   max (max t.a.x t.b.x) t.c.x, max (max t.a.y t.b.y) t.c.y⟩

/-- `Triangle::Height`: `std::max({a.y, b.y, c.y})`. -/
noncomputable def Triangle.Height (t : Triangle) : ℝ := max (max t.a.y t.b.y) t.c.y

/-- `Triangle::Vertices`. -/
noncomputable def Triangle.Vertices (t : Triangle) : List Point2D := [t.a, t.b, t.c]

/-- `geometry::Rectangle`. -/
structure Rectangle where
  bottom_left : Point2D
  width : ℝ
  height : ℝ

/-- `Rectangle::BoundBox`. -/
noncomputable def Rectangle.BoundBox (r : Rectangle) : BoundingBox :=
  ⟨r.bottom_left.x, r.bottom_left.y, r.bottom_left.x + r.width, r.bottom_left.y + r.height⟩

/-- `Rectangle::Height`: `bottom_left.y + height`. -/
noncomputable def Rectangle.Height (r : Rectangle) : ℝ := r.bottom_left.y + r.height

/-- `Rectangle::Vertices`. -/
noncomputable def Rectangle.Vertices (r : Rectangle) : List Point2D :=
  [r.bottom_left,
   ⟨r.bottom_left.x + r.width, r.bottom_left.y⟩,
   ⟨r.bottom_left.x + r.width, r.bottom_left.y + r.height⟩,
   ⟨r.bottom_left.x, r.bottom_left.y + r.height⟩]

/-- `geometry::RegularPolygon`. -/
structure RegularPolygon where
  center_p : Point2D
  radius : ℝ
  sides : ℤ

/-- `RegularPolygon::Vertices`: vertex `i` at angle `2·π·i / sides`. -/
noncomputable def RegularPolygon.Vertices (p : RegularPolygon) : List Point2D :=
  (List.range p.sides.toNat).map fun i =>
    ⟨p.center_p.x + p.radius * Real.cos (2 * Real.pi * i / p.sides),
     p.center_p.y + p.radius * Real.sin (2 * Real.pi * i / p.sides)⟩

/-- `RegularPolygon::BoundBox`. -/
noncomputable def RegularPolygon.BoundBox (p : RegularPolygon) : BoundingBox :=
  ⟨p.center_p.x - p.radius, p.center_p.y - p.radius, p.center_p.x + p.radius, p.center_p.y + p.radius⟩

/-- `RegularPolygon::Height`: `center_p.y + radius`. -/
noncomputable def RegularPolygon.Height (p : RegularPolygon) : ℝ := p.center_p.y + p.radius

/-- `geometry::Circle`. -/
structure Circle where
  center_p : Point2D
  radius : ℝ

/-- `Circle::BoundBox`. -/
noncomputable def Circle.BoundBox (c : Circle) : BoundingBox :=
  ⟨c.center_p.x - c.radius, c.center_p.y - c.radius, c.center_p.x + c.radius, c.center_p.y + c.radius⟩

/-- `Circle::Height`: `center_p.y + radius`. -/
noncomputable def Circle.Height (c : Circle) : ℝ := c.center_p.y + c.radius

/-- `geometry::Polygon`: stores its vertex list. -/
structure Polygon where
  points_ : List Point2D

/-- `Polygon::CalculateBoundBox`: starts from `points_[0]` and folds min/max
over all points (the C++ constructor requires a nonempty list; on `[]` we
return the zero box, a case the source never constructs). -/
noncomputable def Polygon.BoundBox (p : Polygon) : BoundingBox :=
  match p.points_ with
  | [] => ⟨0, 0, 0, 0⟩
  | q :: rest =>
    (q :: rest).foldl
      (fun box r => ⟨min box.min_x r.x, min box.min_y r.y, max box.max_x r.x, max box.max_y r.y⟩)
      ⟨q.x, q.y, q.x, q.y⟩

/-- `Polygon::Height`: `box.max_y - box.min_y` (the bounding box's Y-extent,
not its maximal Y coordinate). -/
noncomputable def Polygon.Height (p : Polygon) : ℝ := p.BoundBox.max_y - p.BoundBox.min_y

/-- `Polygon::Vertices`. -/
noncomputable def Polygon.Vertices (p : Polygon) : List Point2D := p.points_

/-- `geometry::Shape`: the closed variant over the six primitive kinds. -/
inductive Shape where
  | line (l : Line)
  | triangle (t : Triangle)
  | rect (r : Rectangle)
  | regPoly (p : RegularPolygon)
  | circle (c : Circle)
  | poly (p : Polygon)

/-- `queries::GetHeight`: dispatch of `Height()` over the variant. -/
noncomputable def GetHeight : Shape → ℝ
  | .line l => l.Height
  | .triangle t => t.Height
  | .rect r => r.Height
  | .regPoly p => p.Height
  | .circle c => c.Height
  | .poly p => p.Height

/-- `queries::GetBoundBox`: dispatch of `BoundBox()` over the variant. -/
noncomputable def GetBoundBox : Shape → BoundingBox
  | .line l => l.BoundBox
  | .triangle t => t.BoundBox
  | .rect r => r.BoundBox
  | .regPoly p => p.BoundBox
  | .circle c => c.BoundBox
  | .poly p => p.BoundBox

/-- `std::clamp(v, lo, hi)`. -/
noncomputable def clamp (v lo hi : ℝ) : ℝ := if v < lo then lo else if hi < v then hi else v

/-- `std::numeric_limits<double>::max()`. -/
noncomputable def DBL_MAX : ℝ := 17976931348623157 * 10 ^ 292

namespace DistanceVisitor

/-- `queries::DistanceVisitor::operator()(const Line&)`: clamped-projection
point-to-segment distance. -/
noncomputable def line (point : Point2D) (l : Line) : ℝ :=
  let line_vec := l.endP.sub l.start
  let point_vec := point.sub l.start
  let line_length_sq := line_vec.Dot line_vec
  if line_length_sq = 0 then point.DistanceTo l.start
  else
    let t := clamp (point_vec.Dot line_vec / line_length_sq) 0 1
    let projection := l.start.add (line_vec.smul t)
    point.DistanceTo projection

/-- the edge loop shared by the triangle / rectangle / regular-polygon
overloads: minimum of the `Line` overload over the closing edge cycle,
starting from `std::numeric_limits<double>::max()`. -/
noncomputable def minOverEdges (point : Point2D) (vertices : List Point2D) : ℝ :=
  (List.range vertices.length).foldl
    (fun md i =>
      min md (line point ⟨vertices.getD i ⟨0, 0⟩, vertices.getD ((i + 1) % vertices.length) ⟨0, 0⟩⟩))
    DBL_MAX

/-- `queries::DistanceVisitor::operator()(const Circle&)`. -/
noncomputable def circle (point : Point2D) (c : Circle) : ℝ :=
  max 0 (point.DistanceTo c.center_p - c.radius)

/-- `queries::DistanceVisitor::operator()(const Polygon&)`: minimum distance
to a *vertex*. -/
noncomputable def poly (point : Point2D) (p : Polygon) : ℝ :=
  p.Vertices.foldl (fun md q => min md (point.DistanceTo q)) DBL_MAX

/-- `std::visit(DistanceVisitor{point}, shape)`. -/
noncomputable def run (point : Point2D) : Shape → ℝ
  | .line l => line point l
  | .triangle t => minOverEdges point t.Vertices
  | .rect r => minOverEdges point r.Vertices
  | .regPoly p => minOverEdges point p.Vertices
  | .circle c => circle point c
  | .poly p => poly point p

end DistanceVisitor

namespace PointToShapeDistanceVisitor

/-- `queries::PointToShapeDistanceVisitor::operator()(const Line&)` (the
source repeats the clamped-projection computation verbatim). -/
noncomputable def line (point : Point2D) (l : Line) : ℝ :=
  let line_vec := l.endP.sub l.start
  let point_vec := point.sub l.start
  let line_length_sq := line_vec.Dot line_vec
  if line_length_sq = 0 then point.DistanceTo l.start
  else
    let t := clamp (point_vec.Dot line_vec / line_length_sq) 0 1
    let projection := l.start.add (line_vec.smul t)
    point.DistanceTo projection

/-- the edge loop shared by the triangle / rectangle / regular-polygon
overloads of `PointToShapeDistanceVisitor`. -/
noncomputable def minOverEdges (point : Point2D) (vertices : List Point2D) : ℝ :=
  (List.range vertices.length).foldl
    (fun md i =>
      min md (line point ⟨vertices.getD i ⟨0, 0⟩, vertices.getD ((i + 1) % vertices.length) ⟨0, 0⟩⟩))
    DBL_MAX

/-- `queries::PointToShapeDistanceVisitor::operator()(const Circle&)`. -/
noncomputable def circle (point : Point2D) (c : Circle) : ℝ :=
  max 0 (point.DistanceTo c.center_p - c.radius)

/-- `queries::PointToShapeDistanceVisitor::operator()(const Polygon&)`. -/
noncomputable def poly (point : Point2D) (p : Polygon) : ℝ :=
  p.Vertices.foldl (fun md q => min md (point.DistanceTo q)) DBL_MAX

/-- `std::visit(PointToShapeDistanceVisitor{point}, shape)`. -/
noncomputable def run (point : Point2D) : Shape → ℝ
  | .line l => line point l
  | .triangle t => minOverEdges point t.Vertices
  | .rect r => minOverEdges point r.Vertices
  | .regPoly p => minOverEdges point p.Vertices
  | .circle c => circle point c
  | .poly p => poly point p

end PointToShapeDistanceVisitor

/-- `queries::DistanceToPoint`: dispatches `PointToShapeDistanceVisitor`. -/
noncomputable def DistanceToPoint (shape : Shape) (point : Point2D) : ℝ :=
  PointToShapeDistanceVisitor.run point shape

/-- `queries::ShapeToShapeDistanceVisitor`: circle–circle and line–line
overloads; the template fallback yields `std::nullopt` for every other
ordered combination. The line–line overload takes
`*min_element` of the four `DistanceVisitor` endpoint distances. -/
noncomputable def ShapeToShapeDistanceVisitor : Shape → Shape → Option ℝ
  | .circle c1, .circle c2 =>
      some (max 0 (c1.center_p.DistanceTo c2.center_p - c1.radius - c2.radius))
  | .line l1, .line l2 =>
      some (min (min (min (DistanceVisitor.line l1.start l2) (DistanceVisitor.line l1.endP l2))
                     (DistanceVisitor.line l2.start l1))
                (DistanceVisitor.line l2.endP l1))
  | _, _ => none

/-- `queries::DistanceBetweenShapes`. -/
noncomputable def DistanceBetweenShapes (s1 s2 : Shape) : Option ℝ :=
  ShapeToShapeDistanceVisitor s1 s2

namespace intersections

/-- `IntersectionVisitor::EPS = 1e-9`. -/
noncomputable def EPS : ℝ := 1 / 10 ^ 9

/-- `IntersectionVisitor::operator()(const Line&, const Line&)`: parametric
segment–segment intersection. -/
noncomputable def lineLine (l1 l2 : Line) : Option Point2D :=
  let r := l1.endP.sub l1.start
  let s := l2.endP.sub l2.start
  let w := l2.start.sub l1.start
  let r_cross_s := r.Cross s
  if |r_cross_s| < EPS then none
  else
    let t := w.Cross s / r_cross_s
    let u := w.Cross r / r_cross_s
    if 0 ≤ t ∧ t ≤ 1 ∧ 0 ≤ u ∧ u ≤ 1 then some (l1.start.add (r.smul t))
    else none

/-- `IntersectionVisitor::intersectLineCircle`. -/
noncomputable def intersectLineCircle (line : Line) (circle : Circle) : Option Point2D :=
  let d := line.endP.sub line.start
  let f := line.start.sub circle.center_p
  let a := d.Dot d
  if a < EPS then
    let dist_sq := f.Dot f
    let radius_sq := circle.radius * circle.radius
    if |dist_sq - radius_sq| < EPS then some line.start else none
  else
    let b := 2 * f.Dot d
    let c := f.Dot f - circle.radius * circle.radius
    let discriminant := b * b - 4 * a * c
    if discriminant < -EPS then none
    else if |discriminant| ≤ EPS then
      let t := -b / (2 * a)
      if 0 ≤ t ∧ t ≤ 1 then some (line.start.add (d.smul t)) else none
    else
      let sqrt_d := Real.sqrt discriminant
      let t1 := (-b - sqrt_d) / (2 * a)
      let t2 := (-b + sqrt_d) / (2 * a)
      if 0 ≤ t1 ∧ t1 ≤ 1 then some (line.start.add (d.smul t1))
      else if 0 ≤ t2 ∧ t2 ≤ 1 then some (line.start.add (d.smul t2))
      else none

/-- `IntersectionVisitor::operator()(const Circle&, const Circle&)`: returns
the single intersection point `c1.center + ex·a + ey·h`. -/
noncomputable def circleCircle (c1 c2 : Circle) : Option Point2D :=
  let d := c2.center_p.sub c1.center_p
  let dist := d.Length
  if dist < EPS then none
  else if c1.radius + c2.radius + EPS < dist then none
  else if dist + min c1.radius c2.radius < max c1.radius c2.radius - EPS then none
  else
    let a := (c1.radius * c1.radius - c2.radius * c2.radius + dist * dist) / (2 * dist)
    let h_sq := c1.radius * c1.radius - a * a
    if h_sq < -EPS then none
    else
      let h_sq' := if h_sq < 0 then 0 else h_sq
      let h := Real.sqrt h_sq'
      let ex := d.sdiv dist
      let ey : Point2D := ⟨-ex.y, ex.x⟩
      some ((c1.center_p.add (ex.smul a)).add (ey.smul h))

/-- `intersections::GetIntersectPoint`: binary dispatch; the template
fallback `throw std::logic_error(...)` is modelled as `Except.error` with
the thrown message, supported pairs as `Except.ok` of the visitor result. -/
noncomputable def GetIntersectPoint : Shape → Shape → Except String (Option Point2D)
  | .line l1, .line l2 => .ok (lineLine l1 l2)
  | .line l, .circle c => .ok (intersectLineCircle l c)
  | .circle c, .line l => .ok (intersectLineCircle l c)
  | .circle c1, .circle c2 => .ok (circleCircle c1 c2)
  | _, _ => .error "Intersection not supported for these types"

/-- the reflection of `p` across the line through the centers of `c1` and
`c2` (classical reflection formula `c + (2 (q·d)/(d·d))·d − q` for
`q = p − c`): vocabulary for the amended commutativity claim. -/
noncomputable def mirrorAcrossCenterAxis (c1 c2 : Circle) (p : Point2D) : Point2D :=
  let d := c2.center_p.sub c1.center_p
  let q := p.sub c1.center_p
  (c1.center_p.add (d.smul (2 * q.Dot d / d.Dot d))).sub q

end intersections

namespace convex_hull

/-- `convex_hull::CrossProduct(p1, middle, p2)`. -/
noncomputable def CrossProduct (p1 middle p2 : Point2D) : ℝ :=
  ((p1.sub middle).Cross (p2.sub middle))

/-- the `min_element` comparator of `GrahamScan`: `a.y < b.y || (a.y == b.y
&& a.x < b.x)`. -/
noncomputable def lowerLeft (a b : Point2D) : Bool :=
  a.y < b.y || (a.y = b.y && a.x < b.x)

/-- `std::min_element`: index of the first minimum under `lowerLeft`. -/
noncomputable def minElementIndex (points : List Point2D) : ℕ :=
  (points.enum.foldl
    (fun best cur => if lowerLeft cur.2 (points.getD best ⟨0, 0⟩) then cur.1 else best)
    0)

/-- `std::iter_swap(points.begin(), min_it)`. -/
noncomputable def swapFront (points : List Point2D) (i : ℕ) : List Point2D :=
  (points.set 0 (points.getD i ⟨0, 0⟩)).set i (points.getD 0 ⟨0, 0⟩)

/-- the polar-angle sort comparator of `GrahamScan`: ascending polar angle
around the pivot (`cross > 0` means `a` before `b`), ties with
`|cross| < 1e-10` broken by increasing distance from the pivot. -/
noncomputable def angleLess (pivot a b : Point2D) : Bool :=
  let cross := (a.sub pivot).Cross (b.sub pivot)
  if |cross| < 1 / 10 ^ 10 then pivot.DistanceTo a < pivot.DistanceTo b
  else cross > 0

/-- insertion of one element into a list sorted by the strict comparator
`lt` (models the effect of `std::sort`: for the inputs considered the
comparator is a strict total order, so the sorted rearrangement is
unique). -/
noncomputable def insertLt (lt : Point2D → Point2D → Bool) (x : Point2D) :
    List Point2D → List Point2D
  | [] => [x]
  | y :: ys => if lt x y then x :: y :: ys else y :: insertLt lt x ys

/-- sorting by the strict comparator `lt` (see `insertLt`). -/
noncomputable def sortLt (lt : Point2D → Point2D → Bool) : List Point2D → List Point2D
  | [] => []
  | x :: xs => insertLt lt x (sortLt lt xs)

/-- Modelled from the spec: `StackForGrahamScan` lives in the repository's
`convex_hull.hpp`, which is not under `src/`; per §4.5 it is a stack whose
`Push`/`Pop`/`Top`/`NextToTop` have the usual meaning and whose `Extract`
returns "the stack contents in hull order" (bottom to top). The stack is a
list with its head as top. This function is the inner `while` of the scan:
pop while the stack holds more than one point and
`CrossProduct(NextToTop(), Top(), new_p) > 0`. -/
noncomputable def scanPop (new_p : Point2D) : List Point2D → List Point2D
  | [] => []
  | [t] => [t]
  | t :: nt :: rest =>
    if 0 < CrossProduct nt t new_p then scanPop new_p (nt :: rest) else t :: nt :: rest

/-- `convex_hull::GrahamScan` (convex_hull.cpp): too few points yield the
`std::unexpected` message; otherwise pivot selection, polar sort, stack
scan, and `hull.Extract()` (bottom to top, see `scanPop`). -/
noncomputable def GrahamScan (points : List Point2D) : Except String (List Point2D) :=
  if points.length < 3 then .error "At least three points are required for convex hull."
  else
    let pts := swapFront points (minElementIndex points)
    match pts with
    | [] => .ok []
    | pivot :: rest =>
      let sorted := sortLt (angleLess pivot) rest
      let hull := (pivot :: sorted).foldl (fun hull p => p :: scanPop p hull) []
      .ok hull.reverse

end convex_hull

namespace triangulation

/-- `triangulation::DelaunayTriangle` (triangulation.hpp). -/
structure DelaunayTriangle where
  a : Point2D
  b : Point2D
  c : Point2D

/-- `DelaunayTriangle::Circumcenter`: the standard formula, with the
centroid fallback when the doubled signed area is below `1e-10`. -/
noncomputable def DelaunayTriangle.Circumcenter (t : DelaunayTriangle) : Point2D :=
  let a := t.a
  let b := t.b
  let c := t.c
  let d := 2 * (a.x * (b.y - c.y) + b.x * (c.y - a.y) + c.x * (a.y - b.y))
  if |d| < 1 / 10 ^ 10 then ⟨(a.x + b.x + c.x) / 3, (a.y + b.y + c.y) / 3⟩
  else
    ⟨((a.x * a.x + a.y * a.y) * (b.y - c.y) + (b.x * b.x + b.y * b.y) * (c.y - a.y) +
        (c.x * c.x + c.y * c.y) * (a.y - b.y)) / d,
     ((a.x * a.x + a.y * a.y) * (c.x - b.x) + (b.x * b.x + b.y * b.y) * (a.x - c.x) +
        (c.x * c.x + c.y * c.y) * (b.x - a.x)) / d⟩

/-- `DelaunayTriangle::Circumradius`. -/
noncomputable def DelaunayTriangle.Circumradius (t : DelaunayTriangle) : ℝ :=
  t.Circumcenter.DistanceTo t.a

/-- `DelaunayTriangle::ContainsPoint`: circumcircle membership with a
`1e-10` slack. -/
noncomputable def DelaunayTriangle.ContainsPoint (t : DelaunayTriangle) (p : Point2D) : Bool :=
  t.Circumcenter.DistanceTo p ≤ t.Circumradius + 1 / 10 ^ 10

/-- `triangulation::Edge`: an unordered point pair, canonicalized by the
constructor. -/
structure Edge where
  p1 : Point2D
  p2 : Point2D

/-- the `Edge` constructor: swaps so the smaller point (by x, then y) is
first. -/
noncomputable def mkEdge (p1 p2 : Point2D) : Edge :=
  if p1.x > p2.x || (p1.x = p2.x && p1.y > p2.y) then ⟨p2, p1⟩ else ⟨p1, p2⟩

/-- `Edge::operator<`: epsilon-aware lexicographic comparison. -/
noncomputable def Edge.lt (e o : Edge) : Bool :=
  if |e.p1.x - o.p1.x| > 1 / 10 ^ 10 then e.p1.x < o.p1.x
  else if |e.p1.y - o.p1.y| > 1 / 10 ^ 10 then e.p1.y < o.p1.y
  else if |e.p2.x - o.p2.x| > 1 / 10 ^ 10 then e.p2.x < o.p2.x
  else e.p2.y < o.p2.y

/-- `std::set` equivalence under the `Edge::operator<` comparator. -/
noncomputable def Edge.equiv (e o : Edge) : Bool := !e.lt o && !o.lt e

/-- `std::set<Edge>::insert`, on the set's sorted element list: no-op when
an equivalent element is present. -/
noncomputable def setInsert (e : Edge) : List Edge → List Edge
  | [] => [e]
  | x :: xs =>
    if Edge.lt e x then e :: x :: xs
    else if Edge.lt x e then x :: setInsert e xs
    else x :: xs

/-- `std::set<Edge>::erase` of the element equivalent to `e`, if any. -/
noncomputable def setErase (e : Edge) : List Edge → List Edge
  | [] => []
  | x :: xs => if Edge.equiv e x then xs else x :: setErase e xs

/-- the cavity-boundary update `if (!polygon.erase(e)) polygon.insert(e)`. -/
noncomputable def toggleEdge (e : Edge) (s : List Edge) : List Edge :=
  if s.any (Edge.equiv e) then setErase e s else setInsert e s

/-- the `erase_if` comparison of triangles against a bad triangle
(componentwise `1e-10` closeness of all three vertices). -/
noncomputable def triNear (t bad : DelaunayTriangle) : Bool :=
  |t.a.x - bad.a.x| < 1 / 10 ^ 10 && |t.a.y - bad.a.y| < 1 / 10 ^ 10 &&
  |t.b.x - bad.b.x| < 1 / 10 ^ 10 && |t.b.y - bad.b.y| < 1 / 10 ^ 10 &&
  |t.c.x - bad.c.x| < 1 / 10 ^ 10 && |t.c.y - bad.c.y| < 1 / 10 ^ 10

/-- `1e-10` closeness of two points (the super-vertex `erase_if` test). -/
noncomputable def pNear (p q : Point2D) : Bool :=
  |p.x - q.x| < 1 / 10 ^ 10 && |p.y - q.y| < 1 / 10 ^ 10

/-- the first loop of one insertion round: walk the triangles in order,
collect the bad ones and toggle their three edges into the cavity set. -/
noncomputable def collectBad (point : Point2D) (triangles : List DelaunayTriangle) :
    List DelaunayTriangle × List Edge :=
  triangles.foldl
    (fun acc t =>
      if t.ContainsPoint point then
        (acc.1 ++ [t],
         toggleEdge (mkEdge t.c t.a) (toggleEdge (mkEdge t.b t.c) (toggleEdge (mkEdge t.a t.b) acc.2)))
      else acc)
    ([], [])

/-- one iteration of the outer point loop: find bad triangles, remove them
(`std::erase_if` with `triNear`), and connect each cavity edge to the new
point in set order. -/
noncomputable def insertPoint (triangles : List DelaunayTriangle) (point : Point2D) :
    List DelaunayTriangle :=
  let bp := collectBad point triangles
  let remaining := triangles.filter fun t => !(bp.1.any (triNear t))
  remaining ++ bp.2.map fun e => ⟨e.p1, e.p2, point⟩

/-- value of `minmax_element`'s minimum over a projection (the fold starts
from the head; the `< 3` guard keeps the empty default unreachable). -/
noncomputable def listMin (f : Point2D → ℝ) : List Point2D → ℝ
  | [] => 0
  | p :: ps => (ps.map f).foldl min (f p)

/-- value of `minmax_element`'s maximum over a projection. -/
noncomputable def listMax (f : Point2D → ℝ) : List Point2D → ℝ
  | [] => 0
  | p :: ps => (ps.map f).foldl max (f p)

/-- `triangulation::DelaunayTriangulation` (triangulation.hpp):
`throw std::logic_error(...)` on fewer than three points is modelled as
`Except.error` with the thrown message; otherwise the Bowyer–Watson loop
seeded with the 20×-scaled super-triangle, followed by the super-vertex
sweep. -/
noncomputable def DelaunayTriangulation (points : List Point2D) :
    Except String (List DelaunayTriangle) :=
  if points.length < 3 then .error "At least three points are required for triangulation."
  else
    let minX := listMin (·.x) points
    let maxX := listMax (·.x) points
    let minY := listMin (·.y) points
    let maxY := listMax (·.y) points
    let dmax := max (maxX - minX) (maxY - minY)
    let cx := (minX + maxX) / 2
    let cy := (minY + maxY) / 2
    let super1 : Point2D := ⟨cx - 20 * dmax, cy - dmax⟩
    let super2 : Point2D := ⟨cx, cy + 20 * dmax⟩
    let super3 : Point2D := ⟨cx + 20 * dmax, cy - dmax⟩
    let triangles := points.foldl insertPoint [⟨super1, super2, super3⟩]
    .ok (triangles.filter fun t =>
      !(pNear t.a super1 || pNear t.a super2 || pNear t.a super3 ||
        pNear t.b super1 || pNear t.b super2 || pNear t.b super3 ||
        pNear t.c super1 || pNear t.c super2 || pNear t.c super3))

end triangulation

/-! Shared square-root evaluation helpers. -/

/-- `√A ≤ √B + e` holds whenever `A ≤ B` and the slack is nonnegative. -/
theorem sqrt_le_sqrt_add {A B e : ℝ} (hAB : A ≤ B) (he : 0 ≤ e) :
    Real.sqrt A ≤ Real.sqrt B + e :=
  le_add_of_le_of_nonneg (Real.sqrt_le_sqrt hAB) he

/-- `√B + e < √A` whenever a rational bound `m` separates them:
`B ≤ m²` while `(m + e)² < A`. -/
theorem sqrt_add_lt_sqrt (m : ℝ) {A B e : ℝ} (hm : 0 ≤ m) (he : 0 ≤ e)
    (hB : B ≤ m ^ 2) (hA : (m + e) ^ 2 < A) : Real.sqrt B + e < Real.sqrt A := by
  have h1 : Real.sqrt B ≤ m := by
    calc Real.sqrt B ≤ Real.sqrt (m ^ 2) := Real.sqrt_le_sqrt hB
    _ = m := Real.sqrt_sq hm
  have h2 : m + e < Real.sqrt A := (Real.lt_sqrt (by positivity)).2 hA
  calc Real.sqrt B + e ≤ m + e := by linarith
  _ < Real.sqrt A := h2

/-- evaluation of a square root at a perfect square. -/
theorem sqrt_eval {a b : ℝ} (hb : 0 ≤ b) (hab : a = b ^ 2) : Real.sqrt a = b := by
  rw [hab, Real.sqrt_sq hb]

/-- evaluation of `DistanceTo` between concrete points. -/
theorem dist_eval {a b c d r : ℝ} (hr : 0 ≤ r)
    (h : (a - c) * (a - c) + (b - d) * (b - d) = r ^ 2) :
    (Point2D.mk a b).DistanceTo ⟨c, d⟩ = r := by
  unfold Point2D.DistanceTo Point2D.Length Point2D.sub
  exact sqrt_eval hr h

/-- two guarded `some` results agree when their guards are equivalent and
their payloads equal. -/
theorem ite_option_congr {c d : Prop} [Decidable c] [Decidable d] {p q : Point2D}
    (hcd : c ↔ d) (hpq : d → p = q) :
    (if c then some p else none) = (if d then some q else none) := by
  by_cases h : d
  · rw [if_pos (hcd.2 h), if_pos h, hpq h]
  · rw [if_neg (fun hc => h (hcd.1 hc)), if_neg h]

end Geo

namespace Geo

/-- C9: `Point2D::Normalize` is total: a zero-length input yields the zero
vector (the division by the length is guarded by `len > 0` and never
performed with a zero denominator), and an input of positive length is the
point divided componentwise by its Euclidean length. -/
theorem C9_normalize_total (p : Point2D) :
    (p.Length = 0 → p.Normalize = ⟨0, 0⟩) ∧
    (0 < p.Length → p.Normalize = ⟨p.x / p.Length, p.y / p.Length⟩) := by
  constructor
  · intro h
    unfold Point2D.Normalize
    rw [h]
    simp
  · intro h
    unfold Point2D.Normalize
    rw [if_pos h]

/-- C9 witness: the zero vector normalizes to itself and `(3,4)` to
`(3/5, 4/5)`. -/
theorem C9_normalize_total_witness :
    (Point2D.mk 0 0).Normalize = ⟨0, 0⟩ ∧
    (Point2D.mk 3 4).Normalize = ⟨3 / 5, 4 / 5⟩ := by
  have h0 : (Point2D.mk 0 0).Length = 0 := by
    unfold Point2D.Length
    norm_num
  have h5 : (Point2D.mk 3 4).Length = 5 := by
    unfold Point2D.Length
    exact sqrt_eval (by norm_num) (by norm_num)
  refine ⟨(C9_normalize_total ⟨0, 0⟩).1 h0, ?_⟩
  rw [(C9_normalize_total ⟨3, 4⟩).2 (by rw [h5]; norm_num), h5]

/-- C3 counterexample: on the polygon with vertices `{(0,1), (2,3)}` the
`Height()` query returns `2` (the bounding box Y-extent `max_y - min_y`),
not the largest vertex Y coordinate `3`. -/
theorem C3_counterexample :
    GetHeight (.poly ⟨[⟨0, 1⟩, ⟨2, 3⟩]⟩) = 2 ∧
    (GetBoundBox (.poly ⟨[⟨0, 1⟩, ⟨2, 3⟩]⟩)).max_y = 3 ∧
    (∀ q ∈ (Polygon.mk [⟨0, 1⟩, ⟨2, 3⟩]).Vertices, q.y ≤ 3) ∧
    (Point2D.mk 2 3) ∈ (Polygon.mk [⟨0, 1⟩, ⟨2, 3⟩]).Vertices ∧
    GetHeight (.poly ⟨[⟨0, 1⟩, ⟨2, 3⟩]⟩) ≠ 3 := by
  refine ⟨?_, ?_, ?_, ?_, ?_⟩
  · simp [GetHeight, Polygon.Height, Polygon.BoundBox]
    norm_num
  · simp [GetBoundBox, Polygon.BoundBox]
  · intro q hq
    simp [Polygon.Vertices] at hq
    rcases hq with h | h <;> simp [h]
  · simp [Polygon.Vertices]
  · simp [GetHeight, Polygon.Height, Polygon.BoundBox]

/-- C3 amended: `Height()` (and the `GetHeight` dispatch) returns the
bounding box's `max_y` for segment, triangle, rectangle, regular polygon
and circle; for an arbitrary polygon it instead returns the bounding box's
Y-extent `max_y - min_y`. -/
theorem C3_height_semantics (l : Line) (t : Triangle) (r : Rectangle)
    (rp : RegularPolygon) (c : Circle) (p : Polygon) :
    GetHeight (.line l) = (GetBoundBox (.line l)).max_y ∧
    GetHeight (.triangle t) = (GetBoundBox (.triangle t)).max_y ∧
    GetHeight (.rect r) = (GetBoundBox (.rect r)).max_y ∧
    GetHeight (.regPoly rp) = (GetBoundBox (.regPoly rp)).max_y ∧
    GetHeight (.circle c) = (GetBoundBox (.circle c)).max_y ∧
    GetHeight (.poly p) = (GetBoundBox (.poly p)).max_y - (GetBoundBox (.poly p)).min_y :=
  ⟨rfl, rfl, rfl, rfl, rfl, rfl⟩

/-- C10: the two point-to-shape distance embeddings are interchangeable:
`DistanceVisitor` and `PointToShapeDistanceVisitor` return equal values on
every shape of each of the six kinds and every query point, and
`DistanceToPoint` (which dispatches `PointToShapeDistanceVisitor`) returns
that common value. -/
theorem C10_distance_visitors_agree (point : Point2D) (s : Shape) :
    DistanceVisitor.run point s = PointToShapeDistanceVisitor.run point s ∧
    DistanceToPoint s point = DistanceVisitor.run point s := by
  cases s <;> exact ⟨rfl, rfl⟩

/-- C6: segment–segment intersection: parallel or collinear direction
vectors (`|r×s| < 1e-9`, which covers collinear overlapping segments)
yield no intersection; otherwise a single point is returned exactly when
both parameters `t = (w×s)/(r×s)` and `u = (w×r)/(r×s)` lie in `[0,1]`. -/
theorem C6_segment_intersection (l1 l2 : Line) :
    (|(l1.endP.sub l1.start).Cross (l2.endP.sub l2.start)| < intersections.EPS →
      intersections.lineLine l1 l2 = none) ∧
    (¬ |(l1.endP.sub l1.start).Cross (l2.endP.sub l2.start)| < intersections.EPS →
      ((∃ p, intersections.lineLine l1 l2 = some p) ↔
        (0 ≤ (l2.start.sub l1.start).Cross (l2.endP.sub l2.start) /
              (l1.endP.sub l1.start).Cross (l2.endP.sub l2.start) ∧
         (l2.start.sub l1.start).Cross (l2.endP.sub l2.start) /
              (l1.endP.sub l1.start).Cross (l2.endP.sub l2.start) ≤ 1 ∧
         0 ≤ (l2.start.sub l1.start).Cross (l1.endP.sub l1.start) /
              (l1.endP.sub l1.start).Cross (l2.endP.sub l2.start) ∧
         (l2.start.sub l1.start).Cross (l1.endP.sub l1.start) /
              (l1.endP.sub l1.start).Cross (l2.endP.sub l2.start) ≤ 1))) := by
  unfold intersections.lineLine
  constructor
  · intro h
    rw [if_pos h]
  · intro h
    rw [if_neg h]
    by_cases hc :
        0 ≤ (l2.start.sub l1.start).Cross (l2.endP.sub l2.start) /
              (l1.endP.sub l1.start).Cross (l2.endP.sub l2.start) ∧
        (l2.start.sub l1.start).Cross (l2.endP.sub l2.start) /
              (l1.endP.sub l1.start).Cross (l2.endP.sub l2.start) ≤ 1 ∧
        0 ≤ (l2.start.sub l1.start).Cross (l1.endP.sub l1.start) /
              (l1.endP.sub l1.start).Cross (l2.endP.sub l2.start) ∧
        (l2.start.sub l1.start).Cross (l1.endP.sub l1.start) /
              (l1.endP.sub l1.start).Cross (l2.endP.sub l2.start) ≤ 1
    · rw [if_pos hc]
      exact ⟨fun _ => hc, fun _ => ⟨_, rfl⟩⟩
    · rw [if_neg hc]
      constructor
      · rintro ⟨p, hp⟩
        exact Option.noConfusion hp
      · intro hcc
        exact absurd hcc hc

/-- C6 witness: the horizontal parallel pair `(0,0)–(1,0)`, `(0,1)–(1,1)`
yields no intersection; the crossing diagonals of the square
`(0,0)–(2,2)`, `(0,2)–(2,0)` yield a point. -/
theorem C6_segment_intersection_witness :
    intersections.lineLine ⟨⟨0, 0⟩, ⟨1, 0⟩⟩ ⟨⟨0, 1⟩, ⟨1, 1⟩⟩ = none ∧
    ∃ p, intersections.lineLine ⟨⟨0, 0⟩, ⟨2, 2⟩⟩ ⟨⟨0, 2⟩, ⟨2, 0⟩⟩ = some p := by
  constructor
  · exact (C6_segment_intersection _ _).1
      (by norm_num [Point2D.sub, Point2D.Cross, intersections.EPS])
  · exact ((C6_segment_intersection _ _).2
      (by norm_num [Point2D.sub, Point2D.Cross, intersections.EPS])).2
      (by norm_num [Point2D.sub, Point2D.Cross])

/-- the shape kinds the intersection solver supports (segments and
circles). -/
def isSegmentOrCircle : Shape → Prop
  | .line _ => True
  | .circle _ => True
  | _ => False

/-- C8: every ordered shape pair outside {segment, circle} × {segment,
circle} makes `GetIntersectPoint` signal the "unsupported combination"
logic error (the thrown `std::logic_error` message), which is distinct
from the `ok none` ("no intersection") result of supported pairs. -/
theorem C8_unsupported_intersection (s1 s2 : Shape)
    (h : ¬(isSegmentOrCircle s1 ∧ isSegmentOrCircle s2)) :
    intersections.GetIntersectPoint s1 s2 =
      .error "Intersection not supported for these types" ∧
    intersections.GetIntersectPoint s1 s2 ≠ .ok none := by
  cases s1 <;> cases s2 <;>
    simp [isSegmentOrCircle, intersections.GetIntersectPoint] at h ⊢

/-- C8 witness: a triangle–circle query errors out and differs from the
"no intersection" result. -/
theorem C8_unsupported_intersection_witness :
    intersections.GetIntersectPoint (.triangle ⟨⟨0, 0⟩, ⟨1, 0⟩, ⟨0, 1⟩⟩) (.circle ⟨⟨0, 0⟩, 1⟩) =
      .error "Intersection not supported for these types" ∧
    intersections.GetIntersectPoint (.triangle ⟨⟨0, 0⟩, ⟨1, 0⟩, ⟨0, 1⟩⟩) (.circle ⟨⟨0, 0⟩, 1⟩) ≠
      .ok none :=
  C8_unsupported_intersection _ _ (by simp [isSegmentOrCircle])

/-- C5: `DistanceBetweenShapes` is circle–circle
(`max(0, center-distance − r1 − r2)`, in particular `1` for the two unit
circles at `(0,0)` and `(3,0)`) and segment–segment (minimum of the four
endpoint-to-other-segment distances); every other ordered combination
returns no value. -/
theorem C5_distance_between_shapes :
    DistanceBetweenShapes (.circle ⟨⟨0, 0⟩, 1⟩) (.circle ⟨⟨3, 0⟩, 1⟩) = some 1 ∧
    (∀ c1 c2 : Circle, DistanceBetweenShapes (.circle c1) (.circle c2) =
      some (max 0 (c1.center_p.DistanceTo c2.center_p - c1.radius - c2.radius))) ∧
    (∀ l1 l2 : Line, DistanceBetweenShapes (.line l1) (.line l2) =
      some (min (min (min (DistanceVisitor.line l1.start l2) (DistanceVisitor.line l1.endP l2))
                     (DistanceVisitor.line l2.start l1)) (DistanceVisitor.line l2.endP l1))) ∧
    (∀ s1 s2 : Shape, ¬ (∃ c1 c2 : Circle, s1 = .circle c1 ∧ s2 = .circle c2) →
      ¬ (∃ l1 l2 : Line, s1 = .line l1 ∧ s2 = .line l2) →
      DistanceBetweenShapes s1 s2 = none) := by
  refine ⟨?_, fun c1 c2 => rfl, fun l1 l2 => rfl, ?_⟩
  · have h3 : (Point2D.mk 0 0).DistanceTo ⟨3, 0⟩ = 3 := by
      unfold Point2D.DistanceTo Point2D.Length Point2D.sub
      exact sqrt_eval (by norm_num) (by norm_num)
    simp [DistanceBetweenShapes, ShapeToShapeDistanceVisitor, h3]
    norm_num
  · intro s1 s2 h1 h2
    cases s1 <;> cases s2 <;> try rfl
    · exact absurd ⟨_, _, rfl, rfl⟩ h2
    · exact absurd ⟨_, _, rfl, rfl⟩ h1

/-- C5 witness: the triangle–circle combination returns no value. -/
theorem C5_distance_between_shapes_witness :
    DistanceBetweenShapes (.triangle ⟨⟨0, 0⟩, ⟨1, 0⟩, ⟨0, 1⟩⟩) (.circle ⟨⟨2, 2⟩, 1⟩) = none :=
  C5_distance_between_shapes.2.2.2 _ _ (by simp) (by simp)

/-- C2 (evidence for the code/spec divergence): at the failing two-point
input the header's code path raises (modelled as the `error` result
carrying the thrown message), and every input of at least three points
completes with an `ok` triangle list — there is no raising path beyond the
size guard. -/
theorem C2_delaunay_insufficient_input :
    triangulation.DelaunayTriangulation [⟨0, 0⟩, ⟨1, 1⟩] =
      .error "At least three points are required for triangulation." ∧
    ∀ points : List Point2D, 3 ≤ points.length →
      ∃ ts, triangulation.DelaunayTriangulation points = .ok ts := by
  constructor
  · unfold triangulation.DelaunayTriangulation
    rw [if_pos (by norm_num)]
  · intro points h
    unfold triangulation.DelaunayTriangulation
    rw [if_neg (by omega)]
    exact ⟨_, rfl⟩


namespace triangulation

/-! Evaluation lemmas for the Bowyer–Watson run on the unit square
`{(0,0),(1,0),(0,1),(1,1)}`: one circumcircle-containment fact per
(triangle, point) test the loop performs, then one lemma per insertion
round. -/

lemma cp01 : DelaunayTriangle.ContainsPoint ⟨⟨-(39/2), -(1/2)⟩, ⟨1/2, 41/2⟩, ⟨41/2, -(1/2)⟩⟩ ⟨0, 0⟩ = true := by
  unfold DelaunayTriangle.ContainsPoint DelaunayTriangle.Circumradius DelaunayTriangle.Circumcenter
  unfold Point2D.DistanceTo Point2D.Length Point2D.sub
  norm_num [abs_lt, abs_le, lt_abs, le_abs, -Real.sqrt_div, -Real.sqrt_div']
  exact sqrt_le_sqrt_add (by norm_num) (by norm_num)

lemma cp02 : DelaunayTriangle.ContainsPoint ⟨⟨-(39/2), -(1/2)⟩, ⟨1/2, 41/2⟩, ⟨0, 0⟩⟩ ⟨1, 0⟩ = false := by
  unfold DelaunayTriangle.ContainsPoint DelaunayTriangle.Circumradius DelaunayTriangle.Circumcenter
  unfold Point2D.DistanceTo Point2D.Length Point2D.sub
  norm_num [abs_lt, abs_le, lt_abs, le_abs, -Real.sqrt_div, -Real.sqrt_div']
  exact sqrt_add_lt_sqrt (363/25) (by norm_num) (by norm_num) (by norm_num) (by norm_num)

lemma cp03 : DelaunayTriangle.ContainsPoint ⟨⟨-(39/2), -(1/2)⟩, ⟨41/2, -(1/2)⟩, ⟨0, 0⟩⟩ ⟨1, 0⟩ = true := by
  unfold DelaunayTriangle.ContainsPoint DelaunayTriangle.Circumradius DelaunayTriangle.Circumcenter
  unfold Point2D.DistanceTo Point2D.Length Point2D.sub
  norm_num [abs_lt, abs_le, lt_abs, le_abs, -Real.sqrt_div, -Real.sqrt_div']

lemma cp04 : DelaunayTriangle.ContainsPoint ⟨⟨1/2, 41/2⟩, ⟨41/2, -(1/2)⟩, ⟨0, 0⟩⟩ ⟨1, 0⟩ = true := by
  unfold DelaunayTriangle.ContainsPoint DelaunayTriangle.Circumradius DelaunayTriangle.Circumcenter
  unfold Point2D.DistanceTo Point2D.Length Point2D.sub
  norm_num [abs_lt, abs_le, lt_abs, le_abs, -Real.sqrt_div, -Real.sqrt_div']
  exact sqrt_le_sqrt_add (by norm_num) (by norm_num)

lemma cp05 : DelaunayTriangle.ContainsPoint ⟨⟨-(39/2), -(1/2)⟩, ⟨1/2, 41/2⟩, ⟨0, 0⟩⟩ ⟨0, 1⟩ = true := by
  unfold DelaunayTriangle.ContainsPoint DelaunayTriangle.Circumradius DelaunayTriangle.Circumcenter
  unfold Point2D.DistanceTo Point2D.Length Point2D.sub
  norm_num [abs_lt, abs_le, lt_abs, le_abs, -Real.sqrt_div, -Real.sqrt_div']
  exact sqrt_le_sqrt_add (by norm_num) (by norm_num)

lemma cp06 : DelaunayTriangle.ContainsPoint ⟨⟨-(39/2), -(1/2)⟩, ⟨0, 0⟩, ⟨1, 0⟩⟩ ⟨0, 1⟩ = false := by
  unfold DelaunayTriangle.ContainsPoint DelaunayTriangle.Circumradius DelaunayTriangle.Circumcenter
  unfold Point2D.DistanceTo Point2D.Length Point2D.sub
  norm_num [abs_lt, abs_le, lt_abs, le_abs, -Real.sqrt_div, -Real.sqrt_div']
  exact sqrt_add_lt_sqrt (1250001/3125) (by norm_num) (by norm_num) (by norm_num) (by norm_num)

lemma cp07 : DelaunayTriangle.ContainsPoint ⟨⟨-(39/2), -(1/2)⟩, ⟨41/2, -(1/2)⟩, ⟨1, 0⟩⟩ ⟨0, 1⟩ = false := by
  unfold DelaunayTriangle.ContainsPoint DelaunayTriangle.Circumradius DelaunayTriangle.Circumcenter
  unfold Point2D.DistanceTo Point2D.Length Point2D.sub
  norm_num [abs_lt, abs_le, lt_abs, le_abs, -Real.sqrt_div, -Real.sqrt_div']
  exact sqrt_add_lt_sqrt (1250001/3125) (by norm_num) (by norm_num) (by norm_num) (by norm_num)

lemma cp08 : DelaunayTriangle.ContainsPoint ⟨⟨0, 0⟩, ⟨1/2, 41/2⟩, ⟨1, 0⟩⟩ ⟨0, 1⟩ = true := by
  unfold DelaunayTriangle.ContainsPoint DelaunayTriangle.Circumradius DelaunayTriangle.Circumcenter
  unfold Point2D.DistanceTo Point2D.Length Point2D.sub
  norm_num [abs_lt, abs_le, lt_abs, le_abs, -Real.sqrt_div, -Real.sqrt_div']
  exact sqrt_le_sqrt_add (by norm_num) (by norm_num)

lemma cp09 : DelaunayTriangle.ContainsPoint ⟨⟨1/2, 41/2⟩, ⟨41/2, -(1/2)⟩, ⟨1, 0⟩⟩ ⟨0, 1⟩ = false := by
  unfold DelaunayTriangle.ContainsPoint DelaunayTriangle.Circumradius DelaunayTriangle.Circumcenter
  unfold Point2D.DistanceTo Point2D.Length Point2D.sub
  norm_num [abs_lt, abs_le, lt_abs, le_abs, -Real.sqrt_div, -Real.sqrt_div']
  exact sqrt_add_lt_sqrt (363/25) (by norm_num) (by norm_num) (by norm_num) (by norm_num)

lemma cp10 : DelaunayTriangle.ContainsPoint ⟨⟨-(39/2), -(1/2)⟩, ⟨0, 0⟩, ⟨1, 0⟩⟩ ⟨1, 1⟩ = false := by
  unfold DelaunayTriangle.ContainsPoint DelaunayTriangle.Circumradius DelaunayTriangle.Circumcenter
  unfold Point2D.DistanceTo Point2D.Length Point2D.sub
  norm_num [abs_lt, abs_le, lt_abs, le_abs, -Real.sqrt_div, -Real.sqrt_div']
  exact sqrt_add_lt_sqrt (1250001/3125) (by norm_num) (by norm_num) (by norm_num) (by norm_num)

lemma cp11 : DelaunayTriangle.ContainsPoint ⟨⟨-(39/2), -(1/2)⟩, ⟨41/2, -(1/2)⟩, ⟨1, 0⟩⟩ ⟨1, 1⟩ = false := by
  unfold DelaunayTriangle.ContainsPoint DelaunayTriangle.Circumradius DelaunayTriangle.Circumcenter
  unfold Point2D.DistanceTo Point2D.Length Point2D.sub
  norm_num [abs_lt, abs_le, lt_abs, le_abs, -Real.sqrt_div, -Real.sqrt_div']
  exact sqrt_add_lt_sqrt (1250001/3125) (by norm_num) (by norm_num) (by norm_num) (by norm_num)

lemma cp12 : DelaunayTriangle.ContainsPoint ⟨⟨1/2, 41/2⟩, ⟨41/2, -(1/2)⟩, ⟨1, 0⟩⟩ ⟨1, 1⟩ = true := by
  unfold DelaunayTriangle.ContainsPoint DelaunayTriangle.Circumradius DelaunayTriangle.Circumcenter
  unfold Point2D.DistanceTo Point2D.Length Point2D.sub
  norm_num [abs_lt, abs_le, lt_abs, le_abs, -Real.sqrt_div, -Real.sqrt_div']
  exact sqrt_le_sqrt_add (by norm_num) (by norm_num)

lemma cp13 : DelaunayTriangle.ContainsPoint ⟨⟨-(39/2), -(1/2)⟩, ⟨0, 0⟩, ⟨0, 1⟩⟩ ⟨1, 1⟩ = false := by
  unfold DelaunayTriangle.ContainsPoint DelaunayTriangle.Circumradius DelaunayTriangle.Circumcenter
  unfold Point2D.DistanceTo Point2D.Length Point2D.sub
  norm_num [abs_lt, abs_le, lt_abs, le_abs, -Real.sqrt_div, -Real.sqrt_div']
  exact sqrt_add_lt_sqrt (979/100) (by norm_num) (by norm_num) (by norm_num) (by norm_num)

lemma cp14 : DelaunayTriangle.ContainsPoint ⟨⟨-(39/2), -(1/2)⟩, ⟨1/2, 41/2⟩, ⟨0, 1⟩⟩ ⟨1, 1⟩ = false := by
  unfold DelaunayTriangle.ContainsPoint DelaunayTriangle.Circumradius DelaunayTriangle.Circumcenter
  unfold Point2D.DistanceTo Point2D.Length Point2D.sub
  norm_num [abs_lt, abs_le, lt_abs, le_abs, -Real.sqrt_div, -Real.sqrt_div']
  exact sqrt_add_lt_sqrt (729/50) (by norm_num) (by norm_num) (by norm_num) (by norm_num)

lemma cp15 : DelaunayTriangle.ContainsPoint ⟨⟨0, 0⟩, ⟨1, 0⟩, ⟨0, 1⟩⟩ ⟨1, 1⟩ = true := by
  unfold DelaunayTriangle.ContainsPoint DelaunayTriangle.Circumradius DelaunayTriangle.Circumcenter
  unfold Point2D.DistanceTo Point2D.Length Point2D.sub
  norm_num [abs_lt, abs_le, lt_abs, le_abs, -Real.sqrt_div, -Real.sqrt_div']

lemma cp16 : DelaunayTriangle.ContainsPoint ⟨⟨1/2, 41/2⟩, ⟨1, 0⟩, ⟨0, 1⟩⟩ ⟨1, 1⟩ = true := by
  unfold DelaunayTriangle.ContainsPoint DelaunayTriangle.Circumradius DelaunayTriangle.Circumcenter
  unfold Point2D.DistanceTo Point2D.Length Point2D.sub
  norm_num [abs_lt, abs_le, lt_abs, le_abs, -Real.sqrt_div, -Real.sqrt_div']
  exact sqrt_le_sqrt_add (by norm_num) (by norm_num)

lemma step1 :
    insertPoint
      [⟨⟨-(39/2), -(1/2)⟩, ⟨1/2, 41/2⟩, ⟨41/2, -(1/2)⟩⟩] ⟨0, 0⟩ =
      [⟨⟨-(39/2), -(1/2)⟩, ⟨1/2, 41/2⟩, ⟨0, 0⟩⟩,
       ⟨⟨-(39/2), -(1/2)⟩, ⟨41/2, -(1/2)⟩, ⟨0, 0⟩⟩,
       ⟨⟨1/2, 41/2⟩, ⟨41/2, -(1/2)⟩, ⟨0, 0⟩⟩] := by
  norm_num [insertPoint, collectBad, toggleEdge, setInsert, setErase, Edge.equiv, Edge.lt,
    mkEdge, triNear, List.foldl, List.filter, List.any, cp01, abs_lt, abs_le, lt_abs, le_abs,
    -Real.sqrt_div, -Real.sqrt_div']

lemma step2 :
    insertPoint
      [⟨⟨-(39/2), -(1/2)⟩, ⟨1/2, 41/2⟩, ⟨0, 0⟩⟩,
       ⟨⟨-(39/2), -(1/2)⟩, ⟨41/2, -(1/2)⟩, ⟨0, 0⟩⟩,
       ⟨⟨1/2, 41/2⟩, ⟨41/2, -(1/2)⟩, ⟨0, 0⟩⟩] ⟨1, 0⟩ =
      [⟨⟨-(39/2), -(1/2)⟩, ⟨1/2, 41/2⟩, ⟨0, 0⟩⟩,
       ⟨⟨-(39/2), -(1/2)⟩, ⟨0, 0⟩, ⟨1, 0⟩⟩,
       ⟨⟨-(39/2), -(1/2)⟩, ⟨41/2, -(1/2)⟩, ⟨1, 0⟩⟩,
       ⟨⟨0, 0⟩, ⟨1/2, 41/2⟩, ⟨1, 0⟩⟩,
       ⟨⟨1/2, 41/2⟩, ⟨41/2, -(1/2)⟩, ⟨1, 0⟩⟩] := by
  norm_num [insertPoint, collectBad, toggleEdge, setInsert, setErase, Edge.equiv, Edge.lt,
    mkEdge, triNear, List.foldl, List.filter, List.any, cp02, cp03, cp04, abs_lt, abs_le, lt_abs, le_abs,
    -Real.sqrt_div, -Real.sqrt_div']

lemma step3 :
    insertPoint
      [⟨⟨-(39/2), -(1/2)⟩, ⟨1/2, 41/2⟩, ⟨0, 0⟩⟩,
       ⟨⟨-(39/2), -(1/2)⟩, ⟨0, 0⟩, ⟨1, 0⟩⟩,
       ⟨⟨-(39/2), -(1/2)⟩, ⟨41/2, -(1/2)⟩, ⟨1, 0⟩⟩,
       ⟨⟨0, 0⟩, ⟨1/2, 41/2⟩, ⟨1, 0⟩⟩,
       ⟨⟨1/2, 41/2⟩, ⟨41/2, -(1/2)⟩, ⟨1, 0⟩⟩] ⟨0, 1⟩ =
      [⟨⟨-(39/2), -(1/2)⟩, ⟨0, 0⟩, ⟨1, 0⟩⟩,
       ⟨⟨-(39/2), -(1/2)⟩, ⟨41/2, -(1/2)⟩, ⟨1, 0⟩⟩,
       ⟨⟨1/2, 41/2⟩, ⟨41/2, -(1/2)⟩, ⟨1, 0⟩⟩,
       ⟨⟨-(39/2), -(1/2)⟩, ⟨0, 0⟩, ⟨0, 1⟩⟩,
       ⟨⟨-(39/2), -(1/2)⟩, ⟨1/2, 41/2⟩, ⟨0, 1⟩⟩,
       ⟨⟨0, 0⟩, ⟨1, 0⟩, ⟨0, 1⟩⟩,
       ⟨⟨1/2, 41/2⟩, ⟨1, 0⟩, ⟨0, 1⟩⟩] := by
  norm_num [insertPoint, collectBad, toggleEdge, setInsert, setErase, Edge.equiv, Edge.lt,
    mkEdge, triNear, List.foldl, List.filter, List.any, cp05, cp06, cp07, cp08, cp09, abs_lt, abs_le, lt_abs, le_abs,
    -Real.sqrt_div, -Real.sqrt_div']

lemma step4 :
    insertPoint
      [⟨⟨-(39/2), -(1/2)⟩, ⟨0, 0⟩, ⟨1, 0⟩⟩,
       ⟨⟨-(39/2), -(1/2)⟩, ⟨41/2, -(1/2)⟩, ⟨1, 0⟩⟩,
       ⟨⟨1/2, 41/2⟩, ⟨41/2, -(1/2)⟩, ⟨1, 0⟩⟩,
       ⟨⟨-(39/2), -(1/2)⟩, ⟨0, 0⟩, ⟨0, 1⟩⟩,
       ⟨⟨-(39/2), -(1/2)⟩, ⟨1/2, 41/2⟩, ⟨0, 1⟩⟩,
       ⟨⟨0, 0⟩, ⟨1, 0⟩, ⟨0, 1⟩⟩,
       ⟨⟨1/2, 41/2⟩, ⟨1, 0⟩, ⟨0, 1⟩⟩] ⟨1, 1⟩ =
      [⟨⟨-(39/2), -(1/2)⟩, ⟨0, 0⟩, ⟨1, 0⟩⟩,
       ⟨⟨-(39/2), -(1/2)⟩, ⟨41/2, -(1/2)⟩, ⟨1, 0⟩⟩,
       ⟨⟨-(39/2), -(1/2)⟩, ⟨0, 0⟩, ⟨0, 1⟩⟩,
       ⟨⟨-(39/2), -(1/2)⟩, ⟨1/2, 41/2⟩, ⟨0, 1⟩⟩,
       ⟨⟨0, 0⟩, ⟨0, 1⟩, ⟨1, 1⟩⟩,
       ⟨⟨0, 0⟩, ⟨1, 0⟩, ⟨1, 1⟩⟩,
       ⟨⟨0, 1⟩, ⟨1/2, 41/2⟩, ⟨1, 1⟩⟩,
       ⟨⟨1/2, 41/2⟩, ⟨41/2, -(1/2)⟩, ⟨1, 1⟩⟩,
       ⟨⟨1, 0⟩, ⟨41/2, -(1/2)⟩, ⟨1, 1⟩⟩] := by
  norm_num [insertPoint, collectBad, toggleEdge, setInsert, setErase, Edge.equiv, Edge.lt,
    mkEdge, triNear, List.foldl, List.filter, List.any, cp10, cp11, cp12, cp13, cp14, cp15, cp16, abs_lt, abs_le, lt_abs, le_abs,
    -Real.sqrt_div, -Real.sqrt_div']

end triangulation

/-- C1 counterexample: the circles of radius 5 centered at `(0,0)` and
`(6,0)` form an intersecting configuration (center distance 6: at least
epsilon, at most `r1+r2+ε`, not nested), yet swapping the argument order
moves the result from `(3,4)` to the mirrored `(3,-4)`, a distance 8 ≫
1e-9 apart. -/
theorem C1_counterexample :
    intersections.circleCircle ⟨⟨0, 0⟩, 5⟩ ⟨⟨6, 0⟩, 5⟩ = some ⟨3, 4⟩ ∧
    intersections.circleCircle ⟨⟨6, 0⟩, 5⟩ ⟨⟨0, 0⟩, 5⟩ = some ⟨3, -4⟩ ∧
    intersections.EPS ≤ (Point2D.mk 0 0).DistanceTo ⟨6, 0⟩ ∧
    (Point2D.mk 0 0).DistanceTo ⟨6, 0⟩ ≤ 5 + 5 + intersections.EPS ∧
    ¬((Point2D.mk 0 0).DistanceTo ⟨6, 0⟩ + min 5 5 < max 5 5 - intersections.EPS) ∧
    ¬((Point2D.mk 3 4).DistanceTo ⟨3, -4⟩ ≤ 1 / 10 ^ 9) := by
  have hd1 : (Point2D.mk 0 0).DistanceTo ⟨6, 0⟩ = 6 := dist_eval (by norm_num) (by norm_num)
  have hd3 : (Point2D.mk 3 4).DistanceTo ⟨3, -4⟩ = 8 := dist_eval (by norm_num) (by norm_num)
  have hL1 : (Point2D.mk 6 0).Length = 6 := by
    unfold Point2D.Length
    exact sqrt_eval (by norm_num) (by norm_num)
  have hL2 : (Point2D.mk (-6) 0).Length = 6 := by
    unfold Point2D.Length
    exact sqrt_eval (by norm_num) (by norm_num)
  have h16 : Real.sqrt 16 = 4 := sqrt_eval (by norm_num) (by norm_num)
  refine ⟨?_, ?_, by rw [hd1]; norm_num [intersections.EPS],
    by rw [hd1]; norm_num [intersections.EPS],
    by rw [hd1]; norm_num [intersections.EPS], by rw [hd3]; norm_num⟩
  · unfold intersections.circleCircle
    simp only [Point2D.sub, Point2D.add, Point2D.smul, Point2D.sdiv]
    norm_num [hL1, intersections.EPS, h16]
  · unfold intersections.circleCircle
    simp only [Point2D.sub, Point2D.add, Point2D.smul, Point2D.sdiv]
    norm_num [hL2, intersections.EPS, h16]

set_option maxHeartbeats 1600000 in
/-- C1 amended: swapping the argument order is commutative for
segment–segment (exactly, in exact arithmetic) and segment–circle (both
orders call the same `intersectLineCircle`), but for circle–circle the
solver's fixed perpendicular convention makes the swapped call return the
*reflection* of the original point across the line through the two
centers; the two orders agree only where that reflection fixes the point
(tangency, `h = 0`). -/
theorem C1_intersection_commutativity (l1 l2 : Line) (l : Line) (c : Circle) (cA cB : Circle) :
    intersections.lineLine l2 l1 = intersections.lineLine l1 l2 ∧
    intersections.GetIntersectPoint (.circle c) (.line l) =
      intersections.GetIntersectPoint (.line l) (.circle c) ∧
    intersections.circleCircle cB cA =
      Option.map (intersections.mirrorAcrossCenterAxis cA cB)
        (intersections.circleCircle cA cB) := by
  refine ⟨?_, rfl, ?_⟩
  · obtain ⟨⟨p1, p2⟩, ⟨q1, q2⟩⟩ := l1
    obtain ⟨⟨u1, u2⟩, ⟨v1, v2⟩⟩ := l2
    simp only [intersections.lineLine, Point2D.sub, Point2D.Cross, Point2D.add, Point2D.smul]
    have hK : ((v1 - u1) * (q2 - p2) - (v2 - u2) * (q1 - p1) : ℝ)
            = -((q1 - p1) * (v2 - u2) - (q2 - p2) * (v1 - u1)) := by ring
    rw [hK, abs_neg]
    by_cases hpar : |(q1 - p1) * (v2 - u2) - (q2 - p2) * (v1 - u1)| < intersections.EPS
    · rw [if_pos hpar, if_pos hpar]
    · rw [if_neg hpar, if_neg hpar]
      have hKne : ((q1 - p1) * (v2 - u2) - (q2 - p2) * (v1 - u1) : ℝ) ≠ 0 := by
        intro h0
        apply hpar
        rw [h0]
        norm_num [intersections.EPS]
      have h1 : ((p1 - u1) * (q2 - p2) - (p2 - u2) * (q1 - p1)) /
            -((q1 - p1) * (v2 - u2) - (q2 - p2) * (v1 - u1)) =
          ((u1 - p1) * (q2 - p2) - (u2 - p2) * (q1 - p1)) /
            ((q1 - p1) * (v2 - u2) - (q2 - p2) * (v1 - u1)) := by
        rw [show ((p1 - u1) * (q2 - p2) - (p2 - u2) * (q1 - p1) : ℝ)
              = -((u1 - p1) * (q2 - p2) - (u2 - p2) * (q1 - p1)) from by ring,
          neg_div_neg_eq]
      have h2 : ((p1 - u1) * (v2 - u2) - (p2 - u2) * (v1 - u1)) /
            -((q1 - p1) * (v2 - u2) - (q2 - p2) * (v1 - u1)) =
          ((u1 - p1) * (v2 - u2) - (u2 - p2) * (v1 - u1)) /
            ((q1 - p1) * (v2 - u2) - (q2 - p2) * (v1 - u1)) := by
        rw [show ((p1 - u1) * (v2 - u2) - (p2 - u2) * (v1 - u1) : ℝ)
              = -((u1 - p1) * (v2 - u2) - (u2 - p2) * (v1 - u1)) from by ring,
          neg_div_neg_eq]
      rw [h1, h2]
      refine ite_option_congr ?_ ?_
      · tauto
      · intro hc
        simp only [Point2D.mk.injEq]
        constructor
        · field_simp
          ring
        · field_simp
          ring
  · obtain ⟨⟨x1, y1⟩, r1⟩ := cA
    obtain ⟨⟨x2, y2⟩, r2⟩ := cB
    simp only [intersections.circleCircle, intersections.mirrorAcrossCenterAxis, Point2D.sub,
      Point2D.add, Point2D.smul, Point2D.sdiv, Point2D.Dot, Point2D.Length]
    have hSS : ((x1 - x2) * (x1 - x2) + (y1 - y2) * (y1 - y2) : ℝ)
             = (x2 - x1) * (x2 - x1) + (y2 - y1) * (y2 - y1) := by ring
    rw [hSS]
    have hSpos : (0 : ℝ) ≤ (x2 - x1) * (x2 - x1) + (y2 - y1) * (y2 - y1) :=
      add_nonneg (mul_self_nonneg _) (mul_self_nonneg _)
    have himp : ¬ Real.sqrt ((x2 - x1) * (x2 - x1) + (y2 - y1) * (y2 - y1)) < intersections.EPS →
        ((x2 - x1) * (x2 - x1) + (y2 - y1) * (y2 - y1) : ℝ) ≠ 0 := by
      intro h hS0
      apply h
      rw [hS0, Real.sqrt_zero]
      norm_num [intersections.EPS]
    generalize hDdef : Real.sqrt ((x2 - x1) * (x2 - x1) + (y2 - y1) * (y2 - y1)) = D at himp ⊢
    by_cases hb1 : D < intersections.EPS
    · rw [if_pos hb1, if_pos hb1]
      rfl
    · have hSne := himp hb1
      have hDne : D ≠ 0 := by
        intro h0
        apply hb1
        rw [h0]
        norm_num [intersections.EPS]
      rw [if_neg hb1, if_neg hb1,
        show (r2 + r1 : ℝ) = r1 + r2 from add_comm r2 r1, min_comm r2 r1, max_comm r2 r1]
      by_cases hb2 : r1 + r2 + intersections.EPS < D
      · rw [if_pos hb2, if_pos hb2]
        rfl
      · rw [if_neg hb2, if_neg hb2]
        by_cases hb3 : D + min r1 r2 < max r1 r2 - intersections.EPS
        · rw [if_pos hb3, if_pos hb3]
          rfl
        · rw [if_neg hb3, if_neg hb3]
          have hhs : (r2 * r2 - (r2 * r2 - r1 * r1 + D * D) / (2 * D) *
                  ((r2 * r2 - r1 * r1 + D * D) / (2 * D)) : ℝ)
              = r1 * r1 - (r1 * r1 - r2 * r2 + D * D) / (2 * D) *
                  ((r1 * r1 - r2 * r2 + D * D) / (2 * D)) := by
            field_simp
            ring
          rw [hhs]
          by_cases hb4 : r1 * r1 - (r1 * r1 - r2 * r2 + D * D) / (2 * D) *
              ((r1 * r1 - r2 * r2 + D * D) / (2 * D)) < -intersections.EPS
          · rw [if_pos hb4, if_pos hb4]
            rfl
          · rw [if_neg hb4, if_neg hb4]
            generalize Real.sqrt (if r1 * r1 - (r1 * r1 - r2 * r2 + D * D) / (2 * D) *
                ((r1 * r1 - r2 * r2 + D * D) / (2 * D)) < 0 then 0
              else r1 * r1 - (r1 * r1 - r2 * r2 + D * D) / (2 * D) *
                ((r1 * r1 - r2 * r2 + D * D) / (2 * D))) = H
            simp only [Option.map_some', Option.some.injEq,
              intersections.mirrorAcrossCenterAxis, Point2D.sub, Point2D.add, Point2D.smul,
              Point2D.sdiv, Point2D.Dot, Point2D.mk.injEq]
            constructor
            · field_simp [hDne, hSne]
              ring
            · field_simp [hDne, hSne]
              ring

/-- C7: `GrahamScan` on the five points `{(0,0),(1,0),(1,1),(0,1),
(0.5,0.5)}` returns exactly the four square corners in hull order; the
interior point `(0.5,0.5)` — collinear with the pivot `(0,0)` and `(1,1)`
but nearer, hence sorted first by the angular-tie rule — is popped by the
hull-maintenance step and excluded. -/
theorem C7_graham_scan_square :
    convex_hull.GrahamScan [⟨0, 0⟩, ⟨1, 0⟩, ⟨1, 1⟩, ⟨0, 1⟩, ⟨1 / 2, 1 / 2⟩] =
      .ok [⟨0, 0⟩, ⟨1, 0⟩, ⟨1, 1⟩, ⟨0, 1⟩] ∧
    ([(⟨0, 0⟩ : Point2D), ⟨1, 0⟩, ⟨1, 1⟩, ⟨0, 1⟩]).length = 4 ∧
    (Point2D.mk (1 / 2) (1 / 2)) ∉ [(⟨0, 0⟩ : Point2D), ⟨1, 0⟩, ⟨1, 1⟩, ⟨0, 1⟩] := by
  have hTie : ¬ ((Point2D.mk 0 0).DistanceTo ⟨1, 1⟩ < (Point2D.mk 0 0).DistanceTo ⟨1 / 2, 1 / 2⟩) := by
    unfold Point2D.DistanceTo Point2D.Length Point2D.sub
    norm_num
    have h1 : (1 : ℝ) ≤ Real.sqrt 2 := by
      rw [show (1 : ℝ) = Real.sqrt 1 from Real.sqrt_one.symm]
      exact Real.sqrt_le_sqrt (by norm_num)
    calc (Real.sqrt 2)⁻¹ ≤ 1 := inv_le_one_of_one_le₀ h1
    _ ≤ Real.sqrt 2 := h1
  refine ⟨?_, rfl, ?_⟩
  · unfold convex_hull.GrahamScan
    norm_num [convex_hull.minElementIndex, convex_hull.swapFront, convex_hull.lowerLeft,
      convex_hull.sortLt, convex_hull.insertLt, convex_hull.angleLess, convex_hull.scanPop,
      convex_hull.CrossProduct, Point2D.sub, Point2D.Cross, abs_lt,
      List.enum, List.enumFrom, List.foldl, List.getD, List.set, hTie]
  · simp [Point2D.mk.injEq]

/-- C4: `DelaunayTriangulation` on `{(0,0),(1,0),(0,1),(1,1)}` returns
exactly the two triangles `{(0,0),(0,1),(1,1)}` and `{(0,0),(1,0),(1,1)}`,
and no returned triangle has any input point strictly inside its
circumcircle (all four corners are cocircular, at exactly the
circumradius). -/
theorem C4_delaunay_unit_square :
    triangulation.DelaunayTriangulation [⟨0, 0⟩, ⟨1, 0⟩, ⟨0, 1⟩, ⟨1, 1⟩] =
      .ok [⟨⟨0, 0⟩, ⟨0, 1⟩, ⟨1, 1⟩⟩, ⟨⟨0, 0⟩, ⟨1, 0⟩, ⟨1, 1⟩⟩] ∧
    ([(⟨⟨0, 0⟩, ⟨0, 1⟩, ⟨1, 1⟩⟩ : triangulation.DelaunayTriangle),
      ⟨⟨0, 0⟩, ⟨1, 0⟩, ⟨1, 1⟩⟩]).length = 2 ∧
    ∀ t ∈ [(⟨⟨0, 0⟩, ⟨0, 1⟩, ⟨1, 1⟩⟩ : triangulation.DelaunayTriangle),
        ⟨⟨0, 0⟩, ⟨1, 0⟩, ⟨1, 1⟩⟩],
      ∀ p ∈ [(⟨0, 0⟩ : Point2D), ⟨1, 0⟩, ⟨0, 1⟩, ⟨1, 1⟩],
        ¬ t.Circumcenter.DistanceTo p < t.Circumradius := by
  refine ⟨?_, rfl, ?_⟩
  · unfold triangulation.DelaunayTriangulation
    rw [if_neg (by norm_num)]
    norm_num [triangulation.listMin, triangulation.listMax, List.foldl]
    rw [triangulation.step1, triangulation.step2, triangulation.step3, triangulation.step4]
    norm_num [triangulation.pNear, List.filter, abs_lt, abs_le, lt_abs, le_abs]
  · intro t ht p hp
    fin_cases ht <;> fin_cases hp <;>
      · unfold triangulation.DelaunayTriangle.Circumradius triangulation.DelaunayTriangle.Circumcenter
        unfold Point2D.DistanceTo Point2D.Length Point2D.sub
        norm_num [abs_lt, abs_le, lt_abs, le_abs, -Real.sqrt_div, -Real.sqrt_div']

/-- C4 witness: the corner `(1,0)` is not strictly inside the circumcircle
of the returned triangle `{(0,0),(0,1),(1,1)}`. -/
theorem C4_delaunay_unit_square_witness :
    ¬ (⟨⟨0, 0⟩, ⟨0, 1⟩, ⟨1, 1⟩⟩ :
        triangulation.DelaunayTriangle).Circumcenter.DistanceTo ⟨1, 0⟩ <
      (⟨⟨0, 0⟩, ⟨0, 1⟩, ⟨1, 1⟩⟩ : triangulation.DelaunayTriangle).Circumradius :=
  C4_delaunay_unit_square.2.2 _ (by simp) _ (by simp)

/-- C2 witness: the two-point input errors with the exact message; the
three-point collinear-free input `{(0,0),(1,0),(0,1)}` completes. -/
theorem C2_delaunay_insufficient_input_witness :
    triangulation.DelaunayTriangulation [⟨0, 0⟩, ⟨1, 1⟩] =
      .error "At least three points are required for triangulation." ∧
    ∃ ts, triangulation.DelaunayTriangulation [⟨0, 0⟩, ⟨1, 0⟩, ⟨0, 1⟩] = .ok ts :=
  ⟨C2_delaunay_insufficient_input.1,
   C2_delaunay_insufficient_input.2 [⟨0, 0⟩, ⟨1, 0⟩, ⟨0, 1⟩] (by norm_num)⟩

end Geo
